import Mathlib

/-!
Shallow embedding of the pupinn hotel backend's booking core
(`src/backend/src/models/{room,booking}.rs`,
`src/backend/src/services/booking_service.rs`, `src/backend/src/errors.rs`).

Modelling conventions:
* `chrono::NaiveDate` is modelled as `Int`, a day number; date subtraction
  (`num_days`) is integer subtraction and `Duration::days 1` is `+ 1`.
  A date is rendered into an error message with `toString` of the `Int`.
* `BigDecimal` prices are modelled as `Int` (all arithmetic performed by the
  code on prices is integer multiplication of a rate by a night count).
* `Uuid` identifiers are modelled as `Nat`.
* The database is a `DbState`: a list of booking rows and a list of room rows.
  `diesel` point queries (`table.find(id).first`) are `List.find?` on the id;
  filtered updates are `List.map` guarded by the filter.
* A `conn.transaction` body is a pure function of the state that either
  returns an error (roll back: caller keeps the old state) or the new state.
  To express the optimistic-concurrency race in `check_in`, the transaction
  body `check_in_txn` takes the snapshot state it reads from and the current
  state its conditional update lands on separately; the sequential operation
  `check_in` instantiates both with the same state.
* `generate_reference` draws random characters and re-queries the table; it is
  modelled as an oracle: the fresh reference string is an explicit argument
  and generation always succeeds (its retry/failure path is out of scope of
  the claims considered here).
-/

namespace Pupinn

/-- `BookingStatus` from `src/backend/src/models/booking.rs`. -/
inductive BookingStatus where
  | upcoming
  | checkedIn
  | checkedOut
  | cancelled
  | noShow
  | overstay
  deriving DecidableEq, Repr, Fintype

/-- `RoomStatus` from `src/backend/src/models/room.rs`. -/
inductive RoomStatus where
  | available
  | occupied
  | maintenance
  | dirty
  | cleaning
  deriving DecidableEq, Repr, Fintype

/-- `BookingStatus::can_transition_to` (booking.rs lines 84-106), with the
match arms in source order: the terminal catch-alls for `CheckedOut` and
`Cancelled` come before the same-status arm. -/
def BookingStatus.can_transition_to : BookingStatus → BookingStatus → Bool
  | .upcoming, .checkedIn => true
  | .upcoming, .cancelled => true
  | .upcoming, .noShow => true
  | .checkedIn, .checkedOut => true
  | .checkedIn, .overstay => true
  | .noShow, .checkedIn => true
  | .noShow, .cancelled => true
  | .overstay, .checkedOut => true
  | .checkedOut, _ => false
  | .cancelled, _ => false
  | a, b => a == b

/-- `BookingStatus::is_terminal` (booking.rs). -/
def BookingStatus.is_terminal : BookingStatus → Bool
  | .checkedOut => true
  | .cancelled => true
  | _ => false

/-- `BookingStatus::blocks_availability` (booking.rs lines 122-129). -/
def BookingStatus.blocks_availability : BookingStatus → Bool
  | .upcoming => true
  | .checkedIn => true
  | .overstay => true
  | _ => false

/-- The `{:?}` (Debug) rendering of a `BookingStatus`, used in error
messages built with `format!`. -/
def BookingStatus.debugStr : BookingStatus → String
  | .upcoming => "Upcoming"
  | .checkedIn => "CheckedIn"
  | .checkedOut => "CheckedOut"
  | .cancelled => "Cancelled"
  | .noShow => "NoShow"
  | .overstay => "Overstay"

/-- `RoomStatus::can_transition_to` (room.rs lines 69-90). -/
def RoomStatus.can_transition_to : RoomStatus → RoomStatus → Bool
  | .available, .occupied => true
  | .available, .maintenance => true
  | .available, .dirty => true
  | .occupied, .available => true
  | .occupied, .dirty => true
  | .maintenance, .available => true
  | .dirty, .cleaning => true
  | .dirty, .available => true
  | .cleaning, .available => true
  | .cleaning, .dirty => true
  | a, b => a == b

/-- Room row (`src/backend/src/models/room.rs`), restricted to the fields the
booking service reads. -/
structure Room where
  id : Nat
  number : String
  status : RoomStatus
  price : Int
  deriving DecidableEq, Repr

/-- Booking row (`src/backend/src/models/booking.rs`), restricted to the
fields the booking service reads or writes. -/
structure Booking where
  id : Nat
  reference : String
  guest_name : String
  room_id : Nat
  check_in_date : Int
  check_out_date : Int
  status : BookingStatus
  created_by_user_id : Option Nat
  creation_source : String
  price : Int
  deriving DecidableEq, Repr

/-- The relational store: the `bookings` and `rooms` tables. -/
structure DbState where
  bookings : List Booking
  rooms : List Room
  deriving DecidableEq, Repr

/-- `AppError` from `src/backend/src/errors.rs` (the variants the booking
service produces). -/
inductive AppError where
  | validationError (msg : String)
  | notFound (msg : String)
  | roomUnavailable (msg : String)
  | invalidStatusTransition (msg : String)
  | conflict (msg : String)
  | databaseError (msg : String)
  | internalError (msg : String)
  deriving DecidableEq, Repr

/-- The `thiserror` `Display` implementation for `AppError` (errors.rs lines
9-40): each variant renders as its `#[error("...")]` text. -/
def AppError.toMessage : AppError → String
  | .validationError m => "Validation error: " ++ m
  | .notFound m => "Not found: " ++ m
  | .roomUnavailable m => "Room unavailable: " ++ m
  | .invalidStatusTransition m => "Invalid status transition: " ++ m
  | .conflict m => "Conflict: " ++ m
  | .databaseError m => "Database error: " ++ m
  | .internalError m => "Internal server error: " ++ m

/-- `diesel::result::Error`, restricted to the shapes the service produces:
`Error::NotFound`, and `Error::DatabaseError(kind, info)` whose message is the
only part the error mapping reads. -/
inductive DieselError where
  | notFound
  | databaseError (msg : String)
  deriving DecidableEq, Repr

/-- `app_error_to_diesel` (booking_service.rs, local fn in `check_in` and
`check_out`): wraps an `AppError`'s Display text into a
`DatabaseError(CheckViolation, StringError(text))`. -/
def app_error_to_diesel (e : AppError) : DieselError :=
  .databaseError e.toMessage

/-- Rust `str::strip_prefix`: `some` of the remainder when `p` starts `s`,
expressed on the character lists underlying the strings. -/
def stripPre (p s : String) : Option String :=
  if s.data.take p.data.length = p.data then
    some (String.mk (s.data.drop p.data.length))
  else
    none

/-- `impl From<diesel::result::Error> for AppError` (errors.rs lines 95-126).
Note the second tested marker is the source's literal (typo'd) text
`"Invalid status-+ transition: "`, which can never match the Display text
`"Invalid status transition: "` produced by `AppError.toMessage`. -/
def AppError.fromDiesel : DieselError → AppError
  | .notFound => .notFound "Resource not found"
  | .databaseError msg =>
    match stripPre "Validation error: " msg with
    | some rest => .validationError rest
    | none =>
      match stripPre "Invalid status-+ transition: " msg with
      | some rest => .invalidStatusTransition rest
      | none =>
        match stripPre "Room unavailable: " msg with
        | some rest => .roomUnavailable rest
        | none =>
          match stripPre "Conflict: " msg with
          | some rest => .conflict rest
          | none => .databaseError msg

/-- Rust `char::is_whitespace`, restricted to the ASCII whitespace that can
occur in the strings this development manipulates. -/
def isWsp (c : Char) : Bool :=
  c == ' ' || c == '\t' || c == '\n' || c == '\r'

/-- Rust `str::trim`: strip leading and trailing whitespace, expressed on the
character list underlying the string. -/
def strTrim (s : String) : String :=
  String.mk (((s.data.dropWhile isWsp).reverse.dropWhile isWsp).reverse)

/-- Rust `str::is_empty`. -/
def strIsEmpty (s : String) : Bool :=
  s.data.isEmpty

/-- The UTF-8 encoded length of one character, as Rust's `str::len` counts
it. -/
def charUtf8Len (c : Char) : Nat :=
  if c.toNat < 128 then 1
  else if c.toNat < 2048 then 2
  else if c.toNat < 65536 then 3
  else 4

/-- Rust `str::len`: the byte length of the UTF-8 encoding. -/
def strByteLen (s : String) : Nat :=
  (s.data.map charUtf8Len).sum

/-- `rooms::table.find(room_id).first(conn)`. -/
def findRoom (s : DbState) (rid : Nat) : Option Room :=
  s.rooms.find? (fun r => r.id == rid)

/-- `bookings::table.find(booking_id).first(conn)`. -/
def findBooking (s : DbState) (bid : Nat) : Option Booking :=
  s.bookings.find? (fun b => b.id == bid)

/-- `BookingService::validate_dates` (booking_service.rs lines 126-148). -/
def validate_dates (today check_in_date check_out_date : Int) :
    Except AppError Unit :=
  if check_in_date < today then
    .error (.validationError "Check-in date cannot be in the past")
  else if check_out_date ≤ check_in_date then
    .error (.validationError "Check-out date must be after check-in date")
  else
    .ok ()

/-- The filter of the conflict query inside `check_availability`
(booking_service.rs lines 164-174): same room, status neither `Cancelled` nor
`CheckedOut`, half-open overlap with the requested range, and not the
excluded booking. -/
def conflictsWith (room_id : Nat) (check_in_date check_out_date : Int)
    (exclude_booking_id : Option Nat) (b : Booking) : Bool :=
  b.room_id == room_id
    && !(b.status == .cancelled)
    && !(b.status == .checkedOut)
    && b.check_in_date < check_out_date
    && b.check_out_date > check_in_date
    && (match exclude_booking_id with
        | some bid => !(b.id == bid)
        | none => true)

/-- `BookingService::check_availability` (booking_service.rs lines 151-205).
The conflict query runs first; then the room row is loaded (a missing room
surfaces as `DatabaseError`), `Maintenance` always blocks, `Occupied` blocks
only a same-day check-in, and otherwise the result is emptiness of the
conflict set. -/
def check_availability (s : DbState) (today : Int) (room_id : Nat)
    (check_in_date check_out_date : Int) (exclude_booking_id : Option Nat) :
    Except AppError Bool :=
  let conflicting := s.bookings.filter
    (conflictsWith room_id check_in_date check_out_date exclude_booking_id)
  match findRoom s room_id with
  | none => .error (.databaseError "Record not found")
  | some room_rec =>
    if room_rec.status = .maintenance then
      .ok false
    else if check_in_date = today ∧ room_rec.status = .occupied then
      .ok false
    else
      .ok conflicting.isEmpty

/-- Modelled from the spec: the `bookings.status` column default applied when
`NewBooking` (which carries no `status` field) is inserted. The database
migration that declares this default is not under `src/`; the spec states
"Persist with status=Upcoming". -/
def bookingStatusColumnDefault : BookingStatus := .upcoming

/-- A diesel filtered update on the bookings table: apply `f` to every row
satisfying `hit`, leave the rest unchanged. -/
def updWhere (hit : Booking → Bool) (f : Booking → Booking)
    (l : List Booking) : List Booking :=
  l.map (fun b => if hit b then f b else b)

/-- `diesel::update(rooms::table.find(rid)).set(status.eq(st))`. -/
def setRoomStatus (s : DbState) (rid : Nat) (st : RoomStatus) : DbState :=
  { s with rooms := s.rooms.map (fun r => if r.id == rid then { r with status := st } else r) }

/-- `BookingService::create_booking` (booking_service.rs lines 208-278),
in source order: date validation, room load, maintenance check, availability
check, reference generation (modelled as the oracle arguments `reference`
and `new_id`), guest-name checks, price defaulting, insert. -/
def create_booking (s : DbState) (today : Int) (guest_name : String)
    (room_id : Nat) (check_in_date check_out_date : Int) (price : Option Int)
    (reference : String) (new_id : Nat) : Except AppError (DbState × Booking) :=
  match validate_dates today check_in_date check_out_date with
  | .error e => .error e
  | .ok _ =>
    match findRoom s room_id with
    | none =>
      .error (.notFound ("Room with ID '" ++ toString room_id ++ "' not found"))
    | some room =>
      if room.status = .maintenance then
        .error (.roomUnavailable ("Room " ++ room.number ++ " is under maintenance"))
      else
        match check_availability s today room_id check_in_date check_out_date none with
        | .error e => .error e
        | .ok avail =>
          if !avail then
            .error (.roomUnavailable
              ("Room " ++ room.number ++ " is not available for the selected dates"))
          else if strIsEmpty (strTrim guest_name) then
            .error (.validationError "Guest name is required")
          else if strByteLen guest_name > 100 then
            .error (.validationError "Guest name must be 100 characters or less")
          else
            let booking_price :=
              price.getD (room.price * max (check_out_date - check_in_date) 1)
            let b : Booking :=
              { id := new_id, reference := reference, guest_name := strTrim guest_name,
                room_id := room_id, check_in_date := check_in_date,
                check_out_date := check_out_date,
                status := bookingStatusColumnDefault,
                created_by_user_id := none, creation_source := "staff",
                price := booking_price }
            .ok ({ s with bookings := s.bookings ++ [b] }, b)

/-- `BookingService::create_guest_booking` (booking_service.rs lines 438-508).
Identical to `create_booking` except: no 100-character guest-name check,
`created_by_user_id = Some(user_id)`, `creation_source = "guest"`. -/
def create_guest_booking (s : DbState) (today : Int) (user_id : Nat)
    (guest_name : String) (room_id : Nat)
    (check_in_date check_out_date : Int) (price : Option Int)
    (reference : String) (new_id : Nat) : Except AppError (DbState × Booking) :=
  match validate_dates today check_in_date check_out_date with
  | .error e => .error e
  | .ok _ =>
    match findRoom s room_id with
    | none =>
      .error (.notFound ("Room with ID '" ++ toString room_id ++ "' not found"))
    | some room =>
      if room.status = .maintenance then
        .error (.roomUnavailable ("Room " ++ room.number ++ " is under maintenance"))
      else
        match check_availability s today room_id check_in_date check_out_date none with
        | .error e => .error e
        | .ok avail =>
          if !avail then
            .error (.roomUnavailable
              ("Room " ++ room.number ++ " is not available for the selected dates"))
          else if strIsEmpty (strTrim guest_name) then
            .error (.validationError "Guest name is required")
          else
            let booking_price :=
              price.getD (room.price * max (check_out_date - check_in_date) 1)
            let b : Booking :=
              { id := new_id, reference := reference, guest_name := strTrim guest_name,
                room_id := room_id, check_in_date := check_in_date,
                check_out_date := check_out_date,
                status := bookingStatusColumnDefault,
                created_by_user_id := some user_id, creation_source := "guest",
                price := booking_price }
            .ok ({ s with bookings := s.bookings ++ [b] }, b)

/-- `BookingService::get_booking_with_room` (booking_service.rs lines
309-326): load the booking (missing → `NotFound` naming the id), then
optionally its room. -/
def get_booking_with_room (s : DbState) (booking_id : Nat) :
    Except AppError (Booking × Option Room) :=
  match findBooking s booking_id with
  | none =>
    .error (.notFound ("Booking with ID '" ++ toString booking_id ++ "' not found"))
  | some booking => .ok (booking, findRoom s booking.room_id)

/-- `BookingService::get_guest_booking` (booking_service.rs lines 552-564):
`get_booking_with_room` plus the ownership check, which fails with
`NotFound("Booking not found")`. -/
def get_guest_booking (s : DbState) (booking_id user_id : Nat) :
    Except AppError (Booking × Option Room) :=
  match get_booking_with_room s booking_id with
  | .error e => .error e
  | .ok bwr =>
    if bwr.1.created_by_user_id ≠ some user_id then
      .error (.notFound "Booking not found")
    else
      .ok bwr

/-- `BookingService::list_bookings_by_user` (booking_service.rs lines
511-549): the rows whose `created_by_user_id` equals the caller, optionally
filtered by status, ordered by `check_in_date` descending. -/
def list_bookings_by_user (s : DbState) (user_id : Nat)
    (status_filter : Option BookingStatus) : List Booking :=
  let rows := s.bookings.filter (fun b =>
    b.created_by_user_id == some user_id
      && (match status_filter with
          | some st => b.status == st
          | none => true))
  rows.mergeSort (fun a b => decide (b.check_in_date ≤ a.check_in_date))

/-- `BookingService::cancel` (booking_service.rs lines 826-853): staff
cancel, guarded by `can_transition_to(Cancelled)`; the update is not
conditional on the previously read status. -/
def cancel (s : DbState) (booking_id : Nat) : Except AppError (DbState × Booking) :=
  match findBooking s booking_id with
  | none =>
    .error (.notFound ("Booking '" ++ toString booking_id ++ "' not found"))
  | some booking =>
    if !(booking.status.can_transition_to .cancelled) then
      .error (.invalidStatusTransition
        ("Cannot cancel booking with status " ++ booking.status.debugStr ++ "."))
    else
      let rows := updWhere (fun b => b.id == booking_id)
        (fun b => { b with status := .cancelled }) s.bookings
      .ok ({ s with bookings := rows }, { booking with status := .cancelled })

/-- `BookingService::cancel_guest_booking` (booking_service.rs lines
567-601): ownership failure is `NotFound("Booking not found")`, and only a
booking whose status is exactly `Upcoming` may be cancelled. -/
def cancel_guest_booking (s : DbState) (booking_id user_id : Nat) :
    Except AppError (DbState × Booking) :=
  match findBooking s booking_id with
  | none => .error (.notFound "Booking not found")
  | some booking =>
    if booking.created_by_user_id ≠ some user_id then
      .error (.notFound "Booking not found")
    else if booking.status ≠ .upcoming then
      .error (.invalidStatusTransition "Only upcoming bookings can be cancelled")
    else
      let rows := updWhere (fun b => b.id == booking_id)
        (fun b => { b with status := .cancelled }) s.bookings
      .ok ({ s with bookings := rows }, { booking with status := .cancelled })

/-- The body of the `conn.transaction` in `BookingService::check_in`
(booking_service.rs lines 617-743). All reads come from the snapshot
`sRead`; the conditional update and the room update land on `sCur`. The
sequential semantics is `sRead = sCur`; a concurrent transaction that
committed between this transaction's read and its write is represented by
an `sCur` that differs from `sRead`. -/
def check_in_txn (sRead sCur : DbState) (today : Int) (booking_id : Nat)
    (confirm_early : Bool) : Except DieselError (DbState × Booking) :=
  match findBooking sRead booking_id with
  | none => .error .notFound
  | some booking =>
    if !(booking.status.can_transition_to .checkedIn) then
      .error (app_error_to_diesel (.invalidStatusTransition
        ("Cannot check in booking with status " ++ booking.status.debugStr)))
    else
      let actual_check_in_date :=
        if booking.check_in_date > today ∧ confirm_early then today
        else booking.check_in_date
      if booking.check_in_date > today ∧ ¬confirm_early then
        .error (app_error_to_diesel (.validationError
          ("Check-in date is " ++ toString booking.check_in_date
            ++ ". Confirm early check-in to proceed.")))
      else
        let conflicting :=
          if actual_check_in_date < booking.check_in_date then
            sRead.bookings.filter (fun b =>
              b.room_id == booking.room_id
                && !(b.id == booking_id)
                && !(b.status == .cancelled)
                && !(b.status == .checkedOut)
                && b.check_in_date < booking.check_out_date
                && b.check_out_date > actual_check_in_date)
          else []
        match conflicting with
        | c :: _ =>
          .error (app_error_to_diesel (.roomUnavailable
            ("Room is not available for early check-in on "
              ++ toString actual_check_in_date
              ++ ". Another booking is active until "
              ++ toString c.check_out_date ++ ".")))
        | [] =>
          match findRoom sRead booking.room_id with
          | none => .error .notFound
          | some current_room =>
            if current_room.status = .maintenance then
              .error (app_error_to_diesel
                (.roomUnavailable "Room is under maintenance"))
            else
              let active_booking :=
                if actual_check_in_date = today ∧ current_room.status = .occupied then
                  sRead.bookings.find? (fun b =>
                    b.room_id == booking.room_id
                      && !(b.id == booking_id)
                      && b.status == .checkedIn
                      && b.check_out_date > today)
                else none
              match active_booking with
              | some active =>
                .error (app_error_to_diesel (.roomUnavailable
                  ("Room is currently occupied by another guest until "
                    ++ toString active.check_out_date)))
              | none =>
                let hit := fun (b : Booking) =>
                  b.id == booking_id && b.status == booking.status
                let upd := fun (b : Booking) =>
                  if actual_check_in_date < booking.check_in_date then
                    { b with status := .checkedIn,
                             check_in_date := actual_check_in_date }
                  else
                    { b with status := .checkedIn }
                let rows_updated := (sCur.bookings.filter hit).length
                if rows_updated = 0 then
                  .error (app_error_to_diesel (.conflict
                    "Booking status was updated by another operation."))
                else
                  let s1 := { sCur with bookings := updWhere hit upd sCur.bookings }
                  let s2 := setRoomStatus s1 booking.room_id .occupied
                  match findBooking s2 booking_id with
                  | none => .error .notFound
                  | some result => .ok (s2, result)

/-- `BookingService::check_in` (booking_service.rs lines 604-745): the
transaction body run sequentially, with its diesel-level error mapped back
through `From<diesel::result::Error> for AppError`. -/
def check_in (s : DbState) (today : Int) (booking_id : Nat)
    (confirm_early : Bool) : Except AppError (DbState × Booking) :=
  match check_in_txn s s today booking_id confirm_early with
  | .error e => .error (AppError.fromDiesel e)
  | .ok r => .ok r

/-- The body of the `conn.transaction` in `BookingService::check_out`
(booking_service.rs lines 761-821). The conditional update uses
`get_result`, so zero affected rows surface as `diesel::Error::NotFound`. -/
def check_out_txn (s : DbState) (today : Int) (booking_id : Nat) :
    Except DieselError (DbState × Booking) :=
  match findBooking s booking_id with
  | none => .error .notFound
  | some booking =>
    if !(booking.status.can_transition_to .checkedOut) then
      .error (app_error_to_diesel (.invalidStatusTransition
        ("Cannot check out booking with status " ++ booking.status.debugStr ++ ".")))
    else
      match findRoom s booking.room_id with
      | none => .error .notFound
      | some current_room =>
        let min_checkout := booking.check_in_date + 1
        let desired_checkout := if today > min_checkout then today else min_checkout
        let nights := max (desired_checkout - booking.check_in_date) 1
        let new_price := current_room.price * nights
        let hit := fun (b : Booking) =>
          b.id == booking_id && b.status == booking.status
        let upd := fun (b : Booking) =>
          { b with status := .checkedOut, check_out_date := desired_checkout,
                   price := new_price }
        match s.bookings.filter hit with
        | [] => .error .notFound
        | h :: _ =>
          let s1 := { s with bookings := updWhere hit upd s.bookings }
          let s2 := setRoomStatus s1 booking.room_id .dirty
          .ok (s2, upd h)

/-- `BookingService::check_out` (booking_service.rs lines 748-823). The
`_confirm_early` argument is ignored by the source, so it is omitted here. -/
def check_out (s : DbState) (today : Int) (booking_id : Nat) :
    Except AppError (DbState × Booking) :=
  match check_out_txn s today booking_id with
  | .error e => .error (AppError.fromDiesel e)
  | .ok r => .ok r

/-- Whether `handle_stale_bookings` flips this row to `Overstay`. -/
def staleCheckedIn (today : Int) (b : Booking) : Bool :=
  b.status == .checkedIn && b.check_out_date < today

/-- `BookingService::handle_stale_bookings` (booking_service.rs lines
1053-1067): the no-show transition is removed (`no_show_count = 0`); every
`CheckedIn` row with `check_out_date < today` becomes `Overstay`; the result
is `(no_show_count, overstay_count)`. -/
def handle_stale_bookings (s : DbState) (today : Int) :
    (Nat × Nat) × DbState :=
  let no_show_count := 0
  let overstay_count := (s.bookings.filter (staleCheckedIn today)).length
  let rows := updWhere (staleCheckedIn today)
    (fun b => { b with status := .overstay }) s.bookings
  ((no_show_count, overstay_count), { s with bookings := rows })

/-! ## Helper lemmas -/

theorem take_len_append {α : Type} (l r : List α) : (l ++ r).take l.length = l := by
  induction l with
  | nil => rfl
  | cons a t ih => simp [ih]

theorem drop_len_append {α : Type} (l r : List α) : (l ++ r).drop l.length = r := by
  induction l with
  | nil => rfl
  | cons a t ih => simp [ih]

theorem stripPre_append (p r : String) : stripPre p (p ++ r) = some r := by
  cases p with
  | mk pd =>
    cases r with
    | mk rd =>
      simp [stripPre, String.length, take_len_append, drop_len_append]

theorem forall2_map_self {α : Type} (f : α → α) :
    ∀ (l : List α), List.Forall₂ (fun a b => b = f a) l (l.map f)
  | [] => List.Forall₂.nil
  | a :: t => List.Forall₂.cons rfl (forall2_map_self f t)

theorem find?_map_pres {α : Type} (p : α → Bool) (f : α → α)
    (h : ∀ a, p (f a) = p a) :
    ∀ (l : List α), (l.map f).find? p = (l.find? p).map f
  | [] => rfl
  | a :: t => by
    by_cases hp : p a = true
    · rw [List.map_cons, List.find?_cons_of_pos _ (by rw [h a]; exact hp),
        List.find?_cons_of_pos _ hp]
      rfl
    · have hpf : p a = false := by simpa using hp
      rw [List.map_cons, List.find?_cons_of_neg _ (by simp [h a, hpf]),
        List.find?_cons_of_neg _ (by simp [hpf]), find?_map_pres p f h t]

theorem check_availability_eq (s : DbState) (today : Int) (rid : Nat)
    (cin cout : Int) (excl : Option Nat) (room : Room)
    (hroom : findRoom s rid = some room) :
    check_availability s today rid cin cout excl =
      (if room.status = .maintenance then Except.ok false
       else if cin = today ∧ room.status = .occupied then Except.ok false
       else Except.ok (s.bookings.filter (conflictsWith rid cin cout excl)).isEmpty) := by
  simp only [check_availability, hroom]

/-! ## Spec-side transition tables (for claim C5)

These two definitions are transcriptions of the spec's own words in
sections 4.1 and 4.2 ("Any state → itself (no-op, always legal)." plus the
listed directed pairs), written only to be compared against the source's
`can_transition_to` functions. -/

/-- The room transition table exactly as the spec's section 4.1 lists it. -/
def specRoomTable (s1 s2 : RoomStatus) : Bool :=
  s1 == s2 ||
    match s1, s2 with
    | .available, .occupied => true
    | .available, .maintenance => true
    | .available, .dirty => true
    | .occupied, .available => true
    | .occupied, .dirty => true
    | .maintenance, .available => true
    | .dirty, .cleaning => true
    | .dirty, .available => true
    | .cleaning, .available => true
    | .cleaning, .dirty => true
    | _, _ => false

/-- The booking transition table exactly as the spec's section 4.2 lists it. -/
def specBookingTable (s1 s2 : BookingStatus) : Bool :=
  s1 == s2 ||
    match s1, s2 with
    | .upcoming, .checkedIn => true
    | .upcoming, .cancelled => true
    | .upcoming, .noShow => true
    | .checkedIn, .checkedOut => true
    | .checkedIn, .overstay => true
    | .noShow, .checkedIn => true
    | .noShow, .cancelled => true
    | .overstay, .checkedOut => true
    | _, _ => false

/-! ## Concrete fixtures -/

/-- A room in `Available` state. -/
def roomAvail : Room := { id := 1, number := "101", status := .available, price := 100 }

/-- The same room in `Dirty` state. -/
def roomDirty : Room := { id := 1, number := "101", status := .dirty, price := 100 }

/-- The same room in `Occupied` state. -/
def roomOcc : Room := { id := 1, number := "101", status := .occupied, price := 100 }

/-- A store holding only the `Dirty` room. -/
def stateDirty : DbState := { bookings := [], rooms := [roomDirty] }

/-- An overlapping `NoShow` booking for room 1 on days `[5, 7)`. -/
def bookingNoShow : Booking :=
  { id := 10, reference := "BKA", guest_name := "G", room_id := 1,
    check_in_date := 5, check_out_date := 7, status := .noShow,
    created_by_user_id := none, creation_source := "staff", price := 200 }

/-- Available room plus one overlapping `NoShow` booking. -/
def stateNoShow : DbState := { bookings := [bookingNoShow], rooms := [roomAvail] }

/-- An `Upcoming` booking whose check-in day (-1) is already past day 0. -/
def bookingStaleUp : Booking :=
  { id := 10, reference := "BKB", guest_name := "G", room_id := 1,
    check_in_date := -1, check_out_date := 3, status := .upcoming,
    created_by_user_id := none, creation_source := "staff", price := 200 }

/-- A store holding only the stale `Upcoming` booking. -/
def stateStaleUp : DbState := { bookings := [bookingStaleUp], rooms := [roomAvail] }

/-- A `CheckedOut` booking for room 1. -/
def bookingCO : Booking :=
  { id := 11, reference := "BKC", guest_name := "G", room_id := 1,
    check_in_date := -2, check_out_date := 4, status := .checkedOut,
    created_by_user_id := none, creation_source := "staff", price := 600 }

/-- Occupied room plus the `CheckedOut` booking. -/
def stateCO : DbState := { bookings := [bookingCO], rooms := [roomOcc] }

/-! ## Claim theorems -/

/-- C1, counterexample: the claim says `check_availability` returns `false`
whenever the room's status is not `Available`, even with an empty conflict
set. On a `Dirty` room with no bookings and a future date range the source
returns `true`: only `Maintenance` (always) and `Occupied` (same-day
check-in) gate the result. -/
theorem C1_counterexample :
    roomDirty.status ≠ RoomStatus.available
    ∧ findRoom stateDirty 1 = some roomDirty
    ∧ stateDirty.bookings = []
    ∧ check_availability stateDirty 0 1 5 7 none = .ok true := by
  refine ⟨by decide, rfl, rfl, rfl⟩

/-- C1, amended: `check_availability` returns `false` whenever the room is
under `Maintenance`, and whenever the requested check-in is today and the
room is `Occupied`; in every other case the room's housekeeping status does
not gate the result, which is exactly the emptiness of the overlap-conflict
set. -/
theorem C1_amended (s : DbState) (today : Int) (rid : Nat) (cin cout : Int)
    (excl : Option Nat) (room : Room) (hroom : findRoom s rid = some room) :
    (room.status = .maintenance →
      check_availability s today rid cin cout excl = .ok false)
    ∧ (cin = today → room.status = .occupied →
      check_availability s today rid cin cout excl = .ok false)
    ∧ (room.status ≠ .maintenance → ¬(cin = today ∧ room.status = .occupied) →
      check_availability s today rid cin cout excl =
        .ok (s.bookings.filter (conflictsWith rid cin cout excl)).isEmpty) := by
  rw [check_availability_eq s today rid cin cout excl room hroom]
  refine ⟨fun h1 => ?_, fun h1 h2 => ?_, fun h1 h2 => ?_⟩
  · simp [h1]
  · split_ifs with hA hB
    · rfl
    · rfl
    · exact absurd ⟨h1, h2⟩ hB
  · rw [if_neg h1, if_neg h2]

/-- The room in `Maintenance` state. -/
def roomMaint : Room := { id := 1, number := "101", status := .maintenance, price := 100 }

/-- A store holding only the `Maintenance` room. -/
def stateMaint : DbState := { bookings := [], rooms := [roomMaint] }

/-- C1 witness: instantiating the amended theorem at the maintenance room. -/
theorem C1_witness :
    check_availability stateMaint 0 1 5 7 none = .ok false :=
  (C1_amended stateMaint 0 1 5 7 none roomMaint (by decide)).1 rfl

/-- C2, counterexample: the claim says an overlapping `NoShow` booking does
not cause `check_availability` to return `false`. On an `Available` room
whose only booking is an overlapping `NoShow`, the source returns `false`:
its conflict query filters only `Cancelled` and `CheckedOut` out. -/
theorem C2_counterexample :
    bookingNoShow.status = .noShow
    ∧ BookingStatus.blocks_availability .noShow = false
    ∧ roomAvail.status = .available
    ∧ check_availability stateNoShow 0 1 5 7 none = .ok false := by
  refine ⟨rfl, rfl, rfl, rfl⟩

/-- C2, amended: the conflict set consulted by `check_availability` consists
exactly of the bookings for the room whose status is neither `Cancelled` nor
`CheckedOut` (so `NoShow` does block) that overlap the requested half-open
range, minus the excluded booking; availability is emptiness of that set
when the room-status gates do not fire. -/
theorem C2_amended (s : DbState) (today : Int) (rid : Nat) (cin cout : Int)
    (excl : Option Nat) (room : Room) (hroom : findRoom s rid = some room)
    (hm : room.status ≠ .maintenance)
    (ho : ¬(cin = today ∧ room.status = .occupied)) :
    (check_availability s today rid cin cout excl = .ok true ↔
      ∀ b ∈ s.bookings, conflictsWith rid cin cout excl b = false)
    ∧ (∀ b : Booking, conflictsWith rid cin cout excl b = true ↔
        (b.room_id = rid ∧ b.status ≠ .cancelled ∧ b.status ≠ .checkedOut
          ∧ b.check_in_date < cout ∧ cin < b.check_out_date
          ∧ ∀ e, excl = some e → b.id ≠ e)) := by
  constructor
  · rw [check_availability_eq s today rid cin cout excl room hroom,
      if_neg hm, if_neg ho]
    simp only [Except.ok.injEq, List.isEmpty_iff, List.filter_eq_nil_iff]
    constructor
    · intro h b hb
      simpa using h b hb
    · intro h b hb
      simp [h b hb]
  · intro b
    cases excl with
    | none =>
      simp [conflictsWith, and_assoc]
    | some e0 =>
      simp [conflictsWith, and_assoc]

/-- C2 witness: the amended characterization applied at the concrete
`NoShow` state: the `NoShow` row is in the conflict set, so availability
does not hold. -/
theorem C2_witness :
    ¬(check_availability stateNoShow 0 1 5 7 none = .ok true) := by
  intro h
  have hc := ((C2_amended stateNoShow 0 1 5 7 none roomAvail rfl
    (by decide) (by decide)).1.mp h) bookingNoShow (by simp [stateNoShow])
  simp [conflictsWith, bookingNoShow] at hc

/-- C3, counterexample: the claim says one reconciler run turns every
`Upcoming` booking with `check_in_date < today` into `NoShow` and counts it.
The source removed the no-show transition: the stale `Upcoming` booking is
left unchanged and the returned no-show count is 0. -/
theorem C3_counterexample :
    bookingStaleUp.status = .upcoming
    ∧ bookingStaleUp.check_in_date < 0
    ∧ handle_stale_bookings stateStaleUp 0 = ((0, 0), stateStaleUp) := by
  refine ⟨rfl, by decide, rfl⟩

/-- C3, amended: one reconciler run transitions every booking with status
`CheckedIn` and `check_out_date` strictly before today to `Overstay`, leaves
every other booking and every room unchanged, and returns `(0, n)` where `n`
is the number of overstay transitions applied — the no-show transition is
disabled and its count is always 0. -/
theorem C3_amended (s : DbState) (today : Int) :
    (handle_stale_bookings s today).1.1 = 0
    ∧ (handle_stale_bookings s today).1.2 =
        (s.bookings.filter (staleCheckedIn today)).length
    ∧ (handle_stale_bookings s today).2.rooms = s.rooms
    ∧ List.Forall₂ (fun old new =>
        new = if staleCheckedIn today old then { old with status := BookingStatus.overstay } else old)
        s.bookings (handle_stale_bookings s today).2.bookings := by
  refine ⟨rfl, rfl, rfl, ?_⟩
  exact forall2_map_self _ s.bookings

/-- C5, counterexample: the claim says every same-state pair is a legal
no-op. In the source the terminal catch-all arms for `CheckedOut` and
`Cancelled` precede the same-state arm, so their self-transitions are
rejected, although the spec's table lists them as legal. -/
theorem C5_counterexample :
    BookingStatus.can_transition_to .checkedOut .checkedOut = false
    ∧ BookingStatus.can_transition_to .cancelled .cancelled = false
    ∧ specBookingTable .checkedOut .checkedOut = true := by
  decide

/-- C5, amended: `RoomStatus.can_transition_to` agrees with the spec's
section 4.1 table on all 25 pairs (same-state pairs included);
`BookingStatus.can_transition_to` agrees with the spec's section 4.2 table
on all 36 pairs except the two terminal self-loops: `CheckedOut → CheckedOut`
and `Cancelled → Cancelled` return `false` rather than `true`. -/
theorem C5_amended :
    (∀ s1 s2 : RoomStatus, RoomStatus.can_transition_to s1 s2 = specRoomTable s1 s2)
    ∧ (∀ s1 s2 : BookingStatus,
        BookingStatus.can_transition_to s1 s2 =
          (specBookingTable s1 s2 && !(s1 == s2 && s1.is_terminal))) := by
  decide

/-- C8: the claim (matching the spec) says an illegal `check_in`/`check_out`
returns `InvalidStatusTransition` to the caller. The transaction raises it,
but the diesel round-trip in `errors.rs` tests the typo'd marker
`"Invalid status-+ transition: "`, which never matches the real Display text
`"Invalid status transition: "`, so the caller receives `DatabaseError`
(HTTP 500) instead. The booking and room are indeed left unchanged (the
transaction produces no new state on the error path). -/
theorem C8_theorem :
    check_in stateCO 0 11 false =
      .error (.databaseError "Invalid status transition: Cannot check in booking with status CheckedOut")
    ∧ check_out stateCO 0 11 =
      .error (.databaseError "Invalid status transition: Cannot check out booking with status CheckedOut.")
    ∧ AppError.fromDiesel (app_error_to_diesel
        (.invalidStatusTransition "Cannot check in booking with status CheckedOut"))
      = .databaseError "Invalid status transition: Cannot check in booking with status CheckedOut" := by
  refine ⟨rfl, rfl, rfl⟩

theorem findRoom_setRoomStatus (s : DbState) (rid : Nat) (st : RoomStatus)
    (room : Room) (hr : findRoom s rid = some room) :
    findRoom (setRoomStatus s rid st) rid = some { room with status := st } := by
  have hr' : s.rooms.find? (fun r => r.id == rid) = some room := hr
  have hid : (room.id == rid) = true := by simpa using List.find?_some hr'
  have hpres : ∀ r : Room,
      ((if r.id == rid then { r with status := st } else r).id == rid) = (r.id == rid) := by
    intro r
    by_cases h : (r.id == rid) = true
    · simp [h]
    · simp at h
      simp [h]
  show (s.rooms.map fun r => if r.id == rid then { r with status := st } else r).find?
      (fun r => r.id == rid) = some { room with status := st }
  rw [find?_map_pres _ _ hpres s.rooms]
  rw [show s.rooms.find? (fun r => r.id == rid) = some room from hr]
  simp only [Option.map_some', hid, if_true]

theorem findBooking_updWhere (l : List Booking) (bid : Nat) (hit : Booking → Bool)
    (f : Booking → Booking) (hid : ∀ x, (f x).id = x.id) :
    (updWhere hit f l).find? (fun x => x.id == bid) =
      (l.find? (fun x => x.id == bid)).map (fun x => if hit x then f x else x) := by
  apply find?_map_pres
  intro a
  by_cases h : hit a = true
  · simp [h, hid]
  · simp at h
    simp [h]

theorem filter_ne_nil_of_mem {α : Type} {l : List α} {a : α} {p : α → Bool}
    (ha : a ∈ l) (hp : p a = true) : l.filter p ≠ [] := by
  intro hnil
  have hmem : a ∈ l.filter p := List.mem_filter.mpr ⟨ha, hp⟩
  rw [hnil] at hmem
  exact absurd hmem (List.not_mem_nil a)

theorem check_out_eq (s : DbState) (today : Int) (bid : Nat) (b : Booking)
    (room : Room) (h0 : Booking) (t0 : List Booking)
    (hb : findBooking s bid = some b)
    (ht : b.status.can_transition_to .checkedOut = true)
    (hr : findRoom s b.room_id = some room)
    (hft : s.bookings.filter (fun x => x.id == bid && x.status == b.status) = h0 :: t0)
    (D P : Int)
    (hD : D = if today > b.check_in_date + 1 then today else b.check_in_date + 1)
    (hP : P = room.price * max (D - b.check_in_date) 1) :
    check_out s today bid =
      .ok (setRoomStatus
            (DbState.mk
              (updWhere (fun x => x.id == bid && x.status == b.status)
                (fun x => { x with status := BookingStatus.checkedOut, check_out_date := D, price := P })
                s.bookings)
              s.rooms)
            b.room_id RoomStatus.dirty,
          { h0 with status := BookingStatus.checkedOut, check_out_date := D, price := P }) := by
  subst hP
  subst hD
  simp [check_out, check_out_txn, hb, hr, ht, hft, updWhere]

/-- C4: for every booking whose status can transition to `CheckedOut` (with
its room present), `check_out` succeeds and sets the booking status to
`CheckedOut`, the checkout date to `max(today, check_in_date + 1)` (hence at
least one night), the price to the room's rate times the nights between
check-in and the new checkout date, and the room's status to `Dirty`. -/
theorem C4_check_out (s : DbState) (today : Int) (bid : Nat)
    (b : Booking) (room : Room)
    (hb : findBooking s bid = some b)
    (ht : b.status.can_transition_to .checkedOut = true)
    (hr : findRoom s b.room_id = some room) :
    ∃ s2 b2, check_out s today bid = .ok (s2, b2)
      ∧ b2.status = .checkedOut
      ∧ b2.check_out_date = max today (b.check_in_date + 1)
      ∧ b.check_in_date + 1 ≤ b2.check_out_date
      ∧ b2.price = room.price * (b2.check_out_date - b.check_in_date)
      ∧ ∃ r2, findRoom s2 b.room_id = some r2 ∧ r2.status = .dirty := by
  have hb' : s.bookings.find? (fun x => x.id == bid) = some b := hb
  have hmem : b ∈ s.bookings := List.mem_of_find?_eq_some hb'
  have hidb : (b.id == bid) = true := by simpa using List.find?_some hb'
  have hne : s.bookings.filter (fun x => x.id == bid && x.status == b.status) ≠ [] :=
    filter_ne_nil_of_mem hmem (by simp [hidb])
  obtain ⟨h0, t0, hft⟩ := List.exists_cons_of_ne_nil hne
  have heq := check_out_eq s today bid b room h0 t0 hb ht hr hft _ _ rfl rfl
  refine ⟨_, _, heq, rfl, ?_, ?_, ?_, ?_⟩
  · show (if today > b.check_in_date + 1 then today else b.check_in_date + 1)
        = max today (b.check_in_date + 1)
    split_ifs with h
    · exact (max_eq_left (le_of_lt h)).symm
    · exact (max_eq_right (not_lt.mp h)).symm
  · show b.check_in_date + 1 ≤
        (if today > b.check_in_date + 1 then today else b.check_in_date + 1)
    split_ifs with h <;> omega
  · show room.price * max
        ((if today > b.check_in_date + 1 then today else b.check_in_date + 1)
          - b.check_in_date) 1
      = room.price * ((if today > b.check_in_date + 1 then today else b.check_in_date + 1)
          - b.check_in_date)
    rw [max_eq_left (by split_ifs with h <;> omega)]
  · refine ⟨{ room with status := .dirty }, ?_, rfl⟩
    exact findRoom_setRoomStatus _ b.room_id .dirty room hr

/-- A `CheckedIn` booking in room 1, two days in, scheduled out on day 4. -/
def bookingCI : Booking :=
  { id := 11, reference := "BKC", guest_name := "G", room_id := 1,
    check_in_date := -2, check_out_date := 4, status := .checkedIn,
    created_by_user_id := none, creation_source := "staff", price := 600 }

/-- Occupied room plus the `CheckedIn` booking. -/
def stateCI : DbState := { bookings := [bookingCI], rooms := [roomOcc] }

/-- C4 witness: checking out the concrete `CheckedIn` booking on day 0
finalizes it at checkout date 0 (= max(0, -2 + 1)), price 200 (2 nights at
rate 100), and a `Dirty` room. -/
theorem C4_witness :
    ∃ s2 b2, check_out stateCI 0 11 = .ok (s2, b2)
      ∧ b2.status = .checkedOut
      ∧ b2.check_out_date = max 0 (bookingCI.check_in_date + 1)
      ∧ bookingCI.check_in_date + 1 ≤ b2.check_out_date
      ∧ b2.price = roomOcc.price * (b2.check_out_date - bookingCI.check_in_date)
      ∧ ∃ r2, findRoom s2 bookingCI.room_id = some r2 ∧ r2.status = .dirty :=
  C4_check_out stateCI 0 11 bookingCI roomOcc (by decide) (by decide) (by decide)

/-- C10: `create_booking` rejects past check-ins and non-positive stays with
the exact validation errors; once the room exists, is not under maintenance
and is available, it rejects an empty (after trimming) guest name and a
guest name over 100 bytes with validation errors; otherwise it succeeds,
persists the booking with the `Upcoming` status and, when no explicit price
is given, prices it at the room's rate times `max 1 (check_out - check_in)`
nights. -/
theorem C10_create_booking (s : DbState) (today : Int) (name : String)
    (rid : Nat) (cin cout : Int) (pr : Option Int) (ref : String) (nid : Nat)
    (room : Room) :
    (cin < today →
      create_booking s today name rid cin cout pr ref nid =
        .error (.validationError "Check-in date cannot be in the past"))
    ∧ (today ≤ cin → cout ≤ cin →
      create_booking s today name rid cin cout pr ref nid =
        .error (.validationError "Check-out date must be after check-in date"))
    ∧ (today ≤ cin → cin < cout → findRoom s rid = some room →
        room.status ≠ .maintenance →
        check_availability s today rid cin cout none = .ok true →
        strIsEmpty (strTrim name) = true →
        create_booking s today name rid cin cout pr ref nid =
          .error (.validationError "Guest name is required"))
    ∧ (today ≤ cin → cin < cout → findRoom s rid = some room →
        room.status ≠ .maintenance →
        check_availability s today rid cin cout none = .ok true →
        strIsEmpty (strTrim name) = false → strByteLen name > 100 →
        create_booking s today name rid cin cout pr ref nid =
          .error (.validationError "Guest name must be 100 characters or less"))
    ∧ (today ≤ cin → cin < cout → findRoom s rid = some room →
        room.status ≠ .maintenance →
        check_availability s today rid cin cout none = .ok true →
        strIsEmpty (strTrim name) = false → strByteLen name ≤ 100 →
        ∃ s2 b2, create_booking s today name rid cin cout pr ref nid = .ok (s2, b2)
          ∧ b2.status = .upcoming
          ∧ b2.price = pr.getD (room.price * max (cout - cin) 1)
          ∧ s2.bookings = s.bookings ++ [b2]) := by
  refine ⟨fun h1 => ?_, fun h1 h2 => ?_, fun h1 h2 hroom hm hav hempty => ?_,
    fun h1 h2 hroom hm hav hempty hlong => ?_,
    fun h1 h2 hroom hm hav hempty hshort => ?_⟩
  · simp [create_booking, validate_dates, h1]
  · simp [create_booking, validate_dates, not_lt.mpr h1, h2]
  · simp [create_booking, validate_dates, not_lt.mpr h1, not_le.mpr h2,
      hroom, hm, hav, hempty]
  · simp [create_booking, validate_dates, not_lt.mpr h1, not_le.mpr h2,
      hroom, hm, hav, hempty, hlong]
  · have heq : create_booking s today name rid cin cout pr ref nid =
        .ok ({ s with bookings := s.bookings ++
            [{ id := nid, reference := ref, guest_name := strTrim name,
               room_id := rid, check_in_date := cin, check_out_date := cout,
               status := bookingStatusColumnDefault, created_by_user_id := none,
               creation_source := "staff",
               price := pr.getD (room.price * max (cout - cin) 1) }] },
          { id := nid, reference := ref, guest_name := strTrim name,
            room_id := rid, check_in_date := cin, check_out_date := cout,
            status := bookingStatusColumnDefault, created_by_user_id := none,
            creation_source := "staff",
            price := pr.getD (room.price * max (cout - cin) 1) }) := by
      simp [create_booking, validate_dates, not_lt.mpr h1, not_le.mpr h2,
        hroom, hm, hav, hempty, not_lt.mpr hshort]
    exact ⟨_, _, heq, rfl, rfl, rfl⟩

/-- Available room only. -/
def stateAvail : DbState := { bookings := [], rooms := [roomAvail] }

/-- C10 witness: the success branch at a concrete input — room available,
dates (1, 4), no explicit price — yields an `Upcoming` booking priced at
3 nights times rate 100. -/
theorem C10_witness :
    ∃ s2 b2, create_booking stateAvail 0 "Alice" 1 1 4 none "BKREF" 99 = .ok (s2, b2)
      ∧ b2.status = .upcoming
      ∧ b2.price = Option.getD none (roomAvail.price * max (4 - 1) 1)
      ∧ s2.bookings = stateAvail.bookings ++ [b2] :=
  (C10_create_booking stateAvail 0 "Alice" 1 1 4 none "BKREF" 99 roomAvail).2.2.2.2
    (by decide) (by decide) (by decide) (by decide) rfl (by decide) (by decide)

theorem stripPre_head_ne (p q m : String) (c1 c2 : Char) (t1 t2 : List Char)
    (hp : p.data = c1 :: t1) (hq : q.data = c2 :: t2) (hne : c1 ≠ c2) :
    stripPre p (q ++ m) = none := by
  simp only [stripPre]
  rw [if_neg]
  intro hcontra
  rw [String.data_append, hq, hp] at hcontra
  simp only [List.length_cons, List.cons_append, List.take_succ_cons,
    List.cons.injEq] at hcontra
  exact hne hcontra.1.symm

theorem fromDiesel_validation (m : String) :
    AppError.fromDiesel (app_error_to_diesel (.validationError m)) = .validationError m := by
  have h : AppError.toMessage (.validationError m) = "Validation error: " ++ m := rfl
  simp only [app_error_to_diesel, h, AppError.fromDiesel, stripPre_append]

theorem fromDiesel_conflict (m : String) :
    AppError.fromDiesel (app_error_to_diesel (.conflict m)) = .conflict m := by
  have h : AppError.toMessage (.conflict m) = "Conflict: " ++ m := rfl
  simp only [app_error_to_diesel, h, AppError.fromDiesel,
    stripPre_head_ne "Validation error: " "Conflict: " m 'V' 'C' _ _ rfl rfl (by decide),
    stripPre_head_ne "Invalid status-+ transition: " "Conflict: " m 'I' 'C' _ _ rfl rfl (by decide),
    stripPre_head_ne "Room unavailable: " "Conflict: " m 'R' 'C' _ _ rfl rfl (by decide),
    stripPre_append]

/-- The hit predicate of the conditional (optimistic-concurrency) update in
`check_in`/`check_out`: the row with the booking's id whose status still
equals the status read at the start of the transaction. -/
def casHit (bid : Nat) (st : BookingStatus) (x : Booking) : Bool :=
  x.id == bid && x.status == st

theorem check_in_txn_reject_future (sR sC : DbState) (today : Int) (bid : Nat)
    (b : Booking)
    (hb : findBooking sR bid = some b)
    (ht : b.status.can_transition_to .checkedIn = true)
    (hfut : today < b.check_in_date) :
    check_in_txn sR sC today bid false =
      .error (app_error_to_diesel (.validationError
        ("Check-in date is " ++ toString b.check_in_date
          ++ ". Confirm early check-in to proceed."))) := by
  simp [check_in_txn, hb, ht, hfut]

theorem check_in_txn_early_ok (s : DbState) (today : Int) (bid : Nat)
    (b : Booking) (room : Room)
    (hb : findBooking s bid = some b)
    (ht : b.status.can_transition_to .checkedIn = true)
    (hfut : today < b.check_in_date)
    (hconf : s.bookings.filter (fun x =>
        x.room_id == b.room_id && !(x.id == bid)
          && !(x.status == BookingStatus.cancelled)
          && !(x.status == BookingStatus.checkedOut)
          && x.check_in_date < b.check_out_date
          && x.check_out_date > today) = [])
    (hr : findRoom s b.room_id = some room)
    (hm : room.status ≠ .maintenance)
    (ho : room.status ≠ .occupied) :
    check_in_txn s s today bid true =
      .ok (setRoomStatus
            (DbState.mk
              (updWhere (fun x => x.id == bid && x.status == b.status)
                (fun x => { x with status := BookingStatus.checkedIn, check_in_date := today })
                s.bookings)
              s.rooms)
            b.room_id RoomStatus.occupied,
          { b with status := BookingStatus.checkedIn, check_in_date := today }) := by
  have hb' : s.bookings.find? (fun x => x.id == bid) = some b := hb
  have hmem : b ∈ s.bookings := List.mem_of_find?_eq_some hb'
  have hidb : (b.id == bid) = true := by simpa using List.find?_some hb'
  have hne : s.bookings.filter (fun x => x.id == bid && x.status == b.status) ≠ [] :=
    filter_ne_nil_of_mem hmem (by simp [hidb])
  have hlen : ¬((s.bookings.filter (fun x => x.id == bid && x.status == b.status)).length = 0) := by
    intro h
    exact hne (List.length_eq_zero.mp h)
  have hfind : (updWhere (fun x => x.id == bid && x.status == b.status)
      (fun x => { x with status := BookingStatus.checkedIn, check_in_date := today })
      s.bookings).find? (fun x => x.id == bid) =
      some { b with status := BookingStatus.checkedIn, check_in_date := today } := by
    rw [findBooking_updWhere s.bookings bid
      (fun x => x.id == bid && x.status == b.status)
      (fun x => { x with status := BookingStatus.checkedIn, check_in_date := today })
      (fun x => rfl), hb']
    simp only [Option.map_some']
    rw [if_pos (by simp [hidb])]
  simp [check_in_txn, hb', ht, hfut, hconf, hr, hm, ho,
    hlen, findBooking, setRoomStatus, hfind]

theorem check_in_txn_ok (s sC : DbState) (today : Int) (bid : Nat)
    (b : Booking) (room : Room)
    (hb : findBooking s bid = some b)
    (ht : b.status.can_transition_to .checkedIn = true)
    (hpast : b.check_in_date ≤ today)
    (hr : findRoom s b.room_id = some room)
    (hm : room.status ≠ .maintenance)
    (ho : room.status ≠ .occupied)
    (c : Bool)
    (hC : sC.bookings.find? (fun x => x.id == bid) =
      s.bookings.find? (fun x => x.id == bid))
    (hCne : ¬((sC.bookings.filter (fun x => x.id == bid && x.status == b.status)).length = 0)) :
    check_in_txn s sC today bid c =
      .ok (setRoomStatus
            (DbState.mk
              (updWhere (fun x => x.id == bid && x.status == b.status)
                (fun x => { x with status := BookingStatus.checkedIn })
                sC.bookings)
              sC.rooms)
            b.room_id RoomStatus.occupied,
          { b with status := BookingStatus.checkedIn }) := by
  have hb' : s.bookings.find? (fun x => x.id == bid) = some b := hb
  have hidb : (b.id == bid) = true := by simpa using List.find?_some hb'
  have hfind : (updWhere (fun x => x.id == bid && x.status == b.status)
      (fun x => { x with status := BookingStatus.checkedIn })
      sC.bookings).find? (fun x => x.id == bid) =
      some { b with status := BookingStatus.checkedIn } := by
    rw [findBooking_updWhere sC.bookings bid
      (fun x => x.id == bid && x.status == b.status)
      (fun x => { x with status := BookingStatus.checkedIn })
      (fun x => rfl), hC, hb']
    simp only [Option.map_some']
    rw [if_pos (by simp [hidb])]
  simp [check_in_txn, hb', ht, not_lt.mpr hpast, hr, hm, ho,
    hCne, findBooking, setRoomStatus, hfind]

theorem check_in_txn_conflict (s sC : DbState) (today : Int) (bid : Nat)
    (b : Booking) (room : Room)
    (hb : findBooking s bid = some b)
    (ht : b.status.can_transition_to .checkedIn = true)
    (hpast : b.check_in_date ≤ today)
    (hr : findRoom s b.room_id = some room)
    (hm : room.status ≠ .maintenance)
    (ho : room.status ≠ .occupied)
    (c : Bool)
    (hmiss : sC.bookings.filter (fun x => x.id == bid && x.status == b.status) = []) :
    check_in_txn s sC today bid c =
      .error (app_error_to_diesel
        (.conflict "Booking status was updated by another operation.")) := by
  simp [check_in_txn, hb, ht, not_lt.mpr hpast, hr, hm, ho, hmiss]

/-- C7: the `check_in` update is a compare-and-swap guarded by the status
read at the start of the transaction. With the booking `Upcoming` and due,
a transaction whose guard no longer matches (because a concurrent commit
changed the status) affects zero rows and surfaces `Conflict`; of two
concurrent check-ins that both read the booking as `Upcoming`, the first to
commit succeeds and the second receives exactly the `Conflict` error. -/
theorem C7_check_in_race (s : DbState) (today : Int) (bid : Nat)
    (b : Booking) (room : Room)
    (hb : findBooking s bid = some b)
    (hst : b.status = .upcoming)
    (hpast : b.check_in_date ≤ today)
    (hr : findRoom s b.room_id = some room)
    (hm : room.status ≠ .maintenance)
    (ho : room.status ≠ .occupied)
    (c1 c2 : Bool) :
    ∃ s1 r1, check_in_txn s s today bid c1 = .ok (s1, r1)
      ∧ r1.status = .checkedIn
      ∧ (∀ sC : DbState,
          sC.bookings.filter (fun x => x.id == bid && x.status == b.status) = [] →
          check_in_txn s sC today bid c2 =
            .error (app_error_to_diesel
              (.conflict "Booking status was updated by another operation.")))
      ∧ check_in_txn s s1 today bid c2 =
          .error (app_error_to_diesel
            (.conflict "Booking status was updated by another operation."))
      ∧ AppError.fromDiesel (app_error_to_diesel
          (.conflict "Booking status was updated by another operation."))
          = .conflict "Booking status was updated by another operation." := by
  have ht : b.status.can_transition_to .checkedIn = true := by rw [hst]; rfl
  have hb' : s.bookings.find? (fun x => x.id == bid) = some b := hb
  have hmem : b ∈ s.bookings := List.mem_of_find?_eq_some hb'
  have hidb : (b.id == bid) = true := by simpa using List.find?_some hb'
  have hne : s.bookings.filter (fun x => x.id == bid && x.status == b.status) ≠ [] :=
    filter_ne_nil_of_mem hmem (by simp [hidb])
  have hlen : ¬((s.bookings.filter (fun x => x.id == bid && x.status == b.status)).length = 0) := by
    intro h
    exact hne (List.length_eq_zero.mp h)
  have hok := check_in_txn_ok s s today bid b room hb ht hpast hr hm ho c1 rfl hlen
  have hs1 : (updWhere (fun x => x.id == bid && x.status == b.status)
      (fun x => { x with status := BookingStatus.checkedIn })
      s.bookings).filter (fun x => x.id == bid && x.status == b.status) = [] := by
    rw [List.filter_eq_nil_iff]
    intro x hx
    simp only [updWhere, List.mem_map] at hx
    obtain ⟨a, _, rfl⟩ := hx
    by_cases hh : (a.id == bid && a.status == b.status) = true
    · rw [if_pos hh]
      simp [hst]
    · rw [if_neg hh]
      simpa using hh
  refine ⟨_, _, hok, rfl, ?_, ?_, ?_⟩
  · intro sC hmiss
    exact check_in_txn_conflict s sC today bid b room hb ht hpast hr hm ho c2 hmiss
  · exact check_in_txn_conflict s _ today bid b room hb ht hpast hr hm ho c2 hs1
  · exact fromDiesel_conflict _

/-- C9: for an `Upcoming` booking whose check-in date is still in the
future, `check_in` with `confirm_early = false` is rejected with a
validation error that names the scheduled check-in date, while `check_in`
with `confirm_early = true` — absent conflicting bookings, on a room that is
neither under `Maintenance` nor `Occupied` (a `Dirty` or `Cleaning` room is
fine) — succeeds, lowers the booking's check-in date to today, sets its
status to `CheckedIn`, and sets the room to `Occupied`. -/
theorem C9_early_check_in (s : DbState) (today : Int) (bid : Nat)
    (b : Booking) (room : Room)
    (hb : findBooking s bid = some b)
    (hst : b.status = .upcoming)
    (hfut : today < b.check_in_date)
    (hconf : ∀ x ∈ s.bookings, ¬(x.room_id = b.room_id ∧ x.id ≠ bid
        ∧ x.status ≠ BookingStatus.cancelled ∧ x.status ≠ BookingStatus.checkedOut
        ∧ x.check_in_date < b.check_out_date ∧ today < x.check_out_date))
    (hr : findRoom s b.room_id = some room)
    (hm : room.status ≠ .maintenance)
    (ho : room.status ≠ .occupied) :
    check_in s today bid false =
      .error (.validationError ("Check-in date is " ++ toString b.check_in_date
        ++ ". Confirm early check-in to proceed."))
    ∧ ∃ s2 b2, check_in s today bid true = .ok (s2, b2)
        ∧ b2.status = .checkedIn ∧ b2.check_in_date = today
        ∧ ∃ r2, findRoom s2 b.room_id = some r2 ∧ r2.status = .occupied := by
  have ht : b.status.can_transition_to .checkedIn = true := by rw [hst]; rfl
  constructor
  · have he := check_in_txn_reject_future s s today bid b hb ht hfut
    unfold check_in
    rw [he]
    simp only [fromDiesel_validation]
  · have hconf' : s.bookings.filter (fun x =>
        x.room_id == b.room_id && !(x.id == bid)
          && !(x.status == BookingStatus.cancelled)
          && !(x.status == BookingStatus.checkedOut)
          && x.check_in_date < b.check_out_date
          && x.check_out_date > today) = [] := by
      rw [List.filter_eq_nil_iff]
      intro x hx hp
      apply hconf x hx
      simp only [Bool.and_eq_true, beq_iff_eq, Bool.not_eq_true',
        beq_eq_false_iff_ne, decide_eq_true_eq] at hp
      tauto
    have hok := check_in_txn_early_ok s today bid b room hb ht hfut hconf' hr hm ho
    unfold check_in
    rw [hok]
    refine ⟨_, _, rfl, rfl, rfl, ⟨{ room with status := .occupied }, ?_, rfl⟩⟩
    exact findRoom_setRoomStatus _ b.room_id .occupied room hr

/-- An `Upcoming` booking in room 1 with a future check-in (day 5). -/
def bookingFut : Booking :=
  { id := 12, reference := "BKE", guest_name := "G", room_id := 1,
    check_in_date := 5, check_out_date := 8, status := .upcoming,
    created_by_user_id := none, creation_source := "staff", price := 300 }

/-- Dirty room plus the future `Upcoming` booking. -/
def stateFut : DbState := { bookings := [bookingFut], rooms := [roomDirty] }

/-- C9 witness: on day 0, non-confirmed check-in of the day-5 booking is a
validation error naming day 5; confirmed early check-in succeeds on the
`Dirty` room, moving check-in to day 0 and the room to `Occupied`. -/
theorem C9_witness :
    check_in stateFut 0 12 false =
      .error (.validationError ("Check-in date is " ++ toString bookingFut.check_in_date
        ++ ". Confirm early check-in to proceed."))
    ∧ ∃ s2 b2, check_in stateFut 0 12 true = .ok (s2, b2)
        ∧ b2.status = .checkedIn ∧ b2.check_in_date = 0
        ∧ ∃ r2, findRoom s2 bookingFut.room_id = some r2 ∧ r2.status = .occupied :=
  C9_early_check_in stateFut 0 12 bookingFut roomDirty rfl rfl (by decide)
    (by decide) rfl (by decide) (by decide)

/-- An `Upcoming` booking in room 1 due today (day 0). -/
def bookingNow : Booking :=
  { id := 13, reference := "BKF", guest_name := "G", room_id := 1,
    check_in_date := 0, check_out_date := 2, status := .upcoming,
    created_by_user_id := none, creation_source := "staff", price := 200 }

/-- Available room plus the due `Upcoming` booking. -/
def stateNow : DbState := { bookings := [bookingNow], rooms := [roomAvail] }

/-- C7 witness: the race theorem at a concrete store — the first transaction
checks the guest in; the second, whose conditional update finds zero rows
with the originally read `Upcoming` status, receives `Conflict`. -/
theorem C7_witness :
    ∃ s1 r1, check_in_txn stateNow stateNow 0 13 false = .ok (s1, r1)
      ∧ r1.status = .checkedIn
      ∧ (∀ sC : DbState,
          sC.bookings.filter (fun x => x.id == 13 && x.status == bookingNow.status) = [] →
          check_in_txn stateNow sC 0 13 false =
            .error (app_error_to_diesel
              (.conflict "Booking status was updated by another operation.")))
      ∧ check_in_txn stateNow s1 0 13 false =
          .error (app_error_to_diesel
            (.conflict "Booking status was updated by another operation."))
      ∧ AppError.fromDiesel (app_error_to_diesel
          (.conflict "Booking status was updated by another operation."))
          = .conflict "Booking status was updated by another operation." :=
  C7_check_in_race stateNow 0 13 bookingNow roomAvail rfl rfl (by decide) rfl
    (by decide) (by decide) false false

/-- A 101-character guest name. -/
def longName : String := String.mk (List.replicate 101 'a')

/-- A `NoShow` booking owned by guest user 77. -/
def bookingOwned : Booking :=
  { id := 14, reference := "BKG", guest_name := "G", room_id := 1,
    check_in_date := 0, check_out_date := 2, status := .noShow,
    created_by_user_id := some 77, creation_source := "guest", price := 200 }

/-- Available room plus the owned `NoShow` booking. -/
def stateOwned : DbState := { bookings := [bookingOwned], rooms := [roomAvail] }

/-- C6, counterexample: the claim says the guest-scoped operations enforce
exactly the same validation rules as the staff ones. A 101-character guest
name is rejected by `create_booking` but accepted by `create_guest_booking`,
which lacks the 100-character check. -/
theorem C6_counterexample :
    strByteLen longName = 101
    ∧ create_booking stateAvail 0 longName 1 1 3 none "BKH" 99 =
        .error (.validationError "Guest name must be 100 characters or less")
    ∧ ∃ r, create_guest_booking stateAvail 0 77 longName 1 1 3 none "BKH" 99 = .ok r := by
  refine ⟨by decide, rfl, ⟨_, rfl⟩⟩

/-- C6, amended: the guest-scoped operations enforce the ownership rule with
`NotFound` (never `Forbidden`): `get_guest_booking` and
`cancel_guest_booking` return `NotFound("Booking not found")` on an
ownership mismatch, and `list_bookings_by_user` only returns rows owned by
the caller. However the validation and state-machine rules are not exactly
the staff ones: `cancel_guest_booking` only permits cancelling `Upcoming`
bookings (staff `cancel` also cancels a `NoShow`), and
`create_guest_booking` applies the same date, availability and empty-name
checks but omits the 100-character guest-name limit. -/
theorem C6_amended :
    (∀ (s : DbState) (bid uid : Nat) (b : Booking),
        findBooking s bid = some b → b.created_by_user_id ≠ some uid →
        get_guest_booking s bid uid = .error (.notFound "Booking not found")
          ∧ cancel_guest_booking s bid uid = .error (.notFound "Booking not found"))
    ∧ (∀ (s : DbState) (uid : Nat) (sf : Option BookingStatus) (x : Booking),
        x ∈ list_bookings_by_user s uid sf → x.created_by_user_id = some uid)
    ∧ (∀ (s : DbState) (bid uid : Nat) (b : Booking),
        findBooking s bid = some b → b.created_by_user_id = some uid →
        b.status = .noShow →
        cancel_guest_booking s bid uid =
          .error (.invalidStatusTransition "Only upcoming bookings can be cancelled")
          ∧ ∃ r, cancel s bid = .ok r)
    ∧ (∀ (s : DbState) (today : Int) (uid : Nat) (name : String) (rid : Nat)
        (cin cout : Int) (pr : Option Int) (ref : String) (nid : Nat) (room : Room),
        today ≤ cin → cin < cout → findRoom s rid = some room →
        room.status ≠ .maintenance →
        check_availability s today rid cin cout none = .ok true →
        strIsEmpty (strTrim name) = false → 100 < strByteLen name →
        create_booking s today name rid cin cout pr ref nid =
          .error (.validationError "Guest name must be 100 characters or less")
          ∧ ∃ s2 b2, create_guest_booking s today uid name rid cin cout pr ref nid = .ok (s2, b2)
            ∧ b2.created_by_user_id = some uid ∧ b2.creation_source = "guest") := by
  refine ⟨?_, ?_, ?_, ?_⟩
  · intro s bid uid b hb hown
    constructor
    · simp [get_guest_booking, get_booking_with_room, hb, hown]
    · simp [cancel_guest_booking, hb, hown]
  · intro s uid sf x hx
    simp only [list_bookings_by_user, List.mem_mergeSort, List.mem_filter,
      Bool.and_eq_true, beq_iff_eq] at hx
    exact hx.2.1
  · intro s bid uid b hb hown hns
    constructor
    · simp [cancel_guest_booking, hb, hown, hns]
    · refine ⟨({ s with bookings := (updWhere (fun x => x.id == bid) (fun x => { x with status := BookingStatus.cancelled }) s.bookings) }, { b with status := BookingStatus.cancelled }), ?_⟩
      simp [cancel, hb, hns, updWhere]
      decide
  · intro s today uid name rid cin cout pr ref nid room h1 h2 hroom hm hav hempty hlong
    constructor
    · simp [create_booking, validate_dates, not_lt.mpr h1, not_le.mpr h2,
        hroom, hm, hav, hempty, hlong]
    · have heq : create_guest_booking s today uid name rid cin cout pr ref nid =
          .ok ({ s with bookings := s.bookings ++
              [{ id := nid, reference := ref, guest_name := strTrim name,
                 room_id := rid, check_in_date := cin, check_out_date := cout,
                 status := bookingStatusColumnDefault, created_by_user_id := some uid,
                 creation_source := "guest",
                 price := pr.getD (room.price * max (cout - cin) 1) }] },
            { id := nid, reference := ref, guest_name := strTrim name,
              room_id := rid, check_in_date := cin, check_out_date := cout,
              status := bookingStatusColumnDefault, created_by_user_id := some uid,
              creation_source := "guest",
              price := pr.getD (room.price * max (cout - cin) 1) }) := by
        simp [create_guest_booking, validate_dates, not_lt.mpr h1, not_le.mpr h2,
          hroom, hm, hav, hempty]
      exact ⟨_, _, heq, rfl, rfl⟩

/-- C6 witness: the amended theorem applied at the concrete owned `NoShow`
booking — ownership mismatches yield `NotFound`, the guest cancel of a
`NoShow` yields `InvalidStatusTransition` while the staff cancel of the same
booking succeeds. -/
theorem C6_witness :
    get_guest_booking stateOwned 14 78 = .error (.notFound "Booking not found")
    ∧ cancel_guest_booking stateOwned 14 78 = .error (.notFound "Booking not found")
    ∧ cancel_guest_booking stateOwned 14 77 =
        .error (.invalidStatusTransition "Only upcoming bookings can be cancelled")
    ∧ ∃ r, cancel stateOwned 14 = .ok r :=
  ⟨(C6_amended.1 stateOwned 14 78 bookingOwned rfl (by decide)).1,
   (C6_amended.1 stateOwned 14 78 bookingOwned rfl (by decide)).2,
   (C6_amended.2.2.1 stateOwned 14 77 bookingOwned rfl rfl rfl).1,
   (C6_amended.2.2.1 stateOwned 14 77 bookingOwned rfl rfl rfl).2⟩

end Pupinn
